import Mathlib

/-
Formal model of the Conveyor CI/CD pipeline engine, a shallow embedding of
the Go sources:
  src/core/pipeline.go        (the engine used by the HTTP routes)
  src/unnamed/part_000        (the flat-step engine with the dependency
                               scheduler, package core)
  src/api/routes/pipeline.go  (the PUT update handler)

Go maps are modelled as association lists with the usual lookup, overwrite
and delete operations; time.Now() is passed in as an explicit Nat argument;
channels registered as event listeners are modelled as bounded FIFO buffers
(a buffered Go channel accepts a non-blocking send exactly when it has free
space).  Opaque payload maps (step config, metadata maps of type
map-string-interface) and fields never read by the modelled operations are
omitted; error values are modelled as Option String carrying an abbreviated
message.  The asynchronous 2-second completion goroutines inside
ExecutePipeline and RetryJob are not modelled; the theorems below only
concern the synchronous effects of each call.
-/

namespace Conveyor

/-- Association-list lookup, mirroring a Go map read. -/
def lookupA {α : Type} : List (String × α) → String → Option α
  | [], _ => none
  | (k1, v) :: rest, k => if k1 = k then some v else lookupA rest k

/-- Association-list overwrite-or-append, mirroring a Go map write. -/
def insertA {α : Type} : List (String × α) → String → α → List (String × α)
  | [], k, v => [(k, v)]
  | (k1, v1) :: rest, k, v =>
      if k1 = k then (k1, v) :: rest else (k1, v1) :: insertA rest k v

/-- Association-list removal, mirroring the Go builtin delete. -/
def eraseA {α : Type} : List (String × α) → String → List (String × α)
  | [], _ => []
  | (k1, v1) :: rest, k =>
      if k1 = k then eraseA rest k else (k1, v1) :: eraseA rest k

/-- Step of src/core/pipeline.go: id, name, type and the intra-stage
dependsOn list; the opaque config, environment, retry, timeout, cache and
output fields are never read by the modelled engine operations and are
omitted. -/
structure Step where
  id : String
  name : String
  type : String
  dependsOn : List String
  deriving DecidableEq

/-- Stage of src/core/pipeline.go: id, name, steps, the stage-level needs
list, the parallel flag and the stage-level dependsOn list. -/
structure Stage where
  id : String
  name : String
  steps : List Step
  needs : List String
  parallel : Bool
  dependsOn : List String
  deriving DecidableEq

/-- Pipeline of src/core/pipeline.go (triggers, cache defaults, environment
and metadata are advisory payload and omitted). -/
structure Pipeline where
  id : String
  name : String
  description : String
  stages : List Stage
  createdAt : Nat
  updatedAt : Nat
  deriving DecidableEq

/-- Job of src/core/pipeline.go; the metadata map is modelled as a
string-to-string association list (the source only ever stores the
retryOf key). -/
structure Job where
  id : String
  pipelineID : String
  status : String
  startedAt : Nat
  endedAt : Option Nat
  metadata : List (String × String)
  deriving DecidableEq

/-- Event of src/core/pipeline.go; the data map is modelled as a
string-to-string association list. -/
structure Event where
  type : String
  timestamp : Nat
  pipelineID : String
  jobID : String
  stepID : String
  data : List (String × String)
  deriving DecidableEq

/-- An event listener channel (chan Event) with its buffer capacity;
a non-blocking send succeeds exactly when the buffer has free space. -/
structure Sink where
  capacity : Nat
  buffer : List Event
  deriving DecidableEq

/-- The mutable state of PipelineEngine in src/core/pipeline.go: the
pipelines map, the jobs map and the eventListeners map (the plugins map and
the CacheManager byte-slice map are never read by the modelled operations
and are omitted). -/
structure EngineState where
  pipelines : List (String × Pipeline)
  jobs : List (String × Job)
  listeners : List (String × Sink)
  deriving DecidableEq

/-- The engine state produced by NewPipelineEngine. -/
def emptyEngine : EngineState :=
  { pipelines := [], jobs := [], listeners := [] }

/-- emitEvent of src/core/pipeline.go: for every listener channel, a
non-blocking send; the event is appended when the buffer has free space and
silently dropped otherwise. -/
def emitEvent (st : EngineState) (e : Event) : EngineState :=
  { st with
      listeners := st.listeners.map fun p =>
        (p.1,
          if p.2.buffer.length < p.2.capacity then
            { p.2 with buffer := p.2.buffer ++ [e] }
          else p.2) }

/-- CreatePipeline of src/core/pipeline.go: reject an empty id, reject a
duplicate id, otherwise stamp both timestamps with the current time, store
the pipeline and emit one pipeline.created event.  The result carries the
new state, the list of events passed to emitEvent, and the error. -/
def createPipeline (st : EngineState) (p : Pipeline) (now : Nat) :
    EngineState × List Event × Option String :=
  if p.id = "" then (st, [], some "pipeline ID is required")
  else if (lookupA st.pipelines p.id).isSome then
    (st, [], some "pipeline already exists")
  else
    let p1 := { p with createdAt := now, updatedAt := now }
    let ev : Event :=
      { type := "pipeline.created", timestamp := now, pipelineID := p.id,
        jobID := "", stepID := "", data := [("name", p.name)] }
    (emitEvent { st with pipelines := insertA st.pipelines p.id p1 } ev,
      [ev], none)

/-- GetPipeline of src/core/pipeline.go (None models the not-found error). -/
def getPipeline (st : EngineState) (id : String) : Option Pipeline :=
  lookupA st.pipelines id

/-- DeletePipeline of src/core/pipeline.go: not-found error when absent,
otherwise remove the pipeline and emit one pipeline.deleted event; the
stored jobs are never consulted. -/
def deletePipeline (st : EngineState) (id : String) (now : Nat) :
    EngineState × List Event × Option String :=
  if (lookupA st.pipelines id).isNone then
    (st, [], some "pipeline not found")
  else
    let ev : Event :=
      { type := "pipeline.deleted", timestamp := now, pipelineID := id,
        jobID := "", stepID := "", data := [] }
    (emitEvent { st with pipelines := eraseA st.pipelines id } ev, [ev], none)

/-- The job record built by ExecutePipeline: the id is the literal
job-(unix seconds). -/
def newRunJob (pid : String) (now : Nat) : Job :=
  { id := "job-" ++ toString now, pipelineID := pid, status := "running",
    startedAt := now, endedAt := none, metadata := [] }

/-- ExecutePipeline of src/core/pipeline.go (synchronous part): not-found
error when the pipeline is absent, otherwise store a fresh running job
keyed by job-(unix seconds) and emit one job.started event.  The map write
overwrites any job already stored under that id. -/
def executePipeline (st : EngineState) (pid : String) (now : Nat) :
    EngineState × List Event × Option String :=
  if (lookupA st.pipelines pid).isNone then
    (st, [], some "pipeline not found")
  else
    let job := newRunJob pid now
    let ev : Event :=
      { type := "job.started", timestamp := now, pipelineID := pid,
        jobID := job.id, stepID := "", data := [] }
    (emitEvent { st with jobs := insertA st.jobs job.id job } ev, [ev], none)

/-- The job record built by RetryJob, carrying the retryOf metadata. -/
def newRetryJob (pid jid : String) (now : Nat) : Job :=
  { id := "job-" ++ toString now, pipelineID := pid, status := "running",
    startedAt := now, endedAt := none, metadata := [("retryOf", jid)] }

/-- RetryJob of src/core/pipeline.go (synchronous part): not-found error
when the job is absent, mismatch error when it belongs to another pipeline,
otherwise store a fresh running job whose metadata carries retryOf set to
the original job id, and emit one job.started event. -/
def retryJob (st : EngineState) (pid jid : String) (now : Nat) :
    EngineState × List Event × Option String :=
  match lookupA st.jobs jid with
  | none => (st, [], some "job not found")
  | some j =>
    if j.pipelineID ≠ pid then (st, [], some "job pipeline mismatch")
    else
      let job := newRetryJob pid jid now
      let ev : Event :=
        { type := "job.started", timestamp := now, pipelineID := pid,
          jobID := job.id, stepID := "", data := [("retryOf", jid)] }
      (emitEvent { st with jobs := insertA st.jobs job.id job } ev, [ev], none)

/-- UpdateJob of src/core/pipeline.go: not-found error when the id is
absent, otherwise replace the stored record with the given one; the stored
status is never inspected. -/
def updateJob (st : EngineState) (j : Job) : EngineState × Option String :=
  if (lookupA st.jobs j.id).isNone then (st, some "job not found")
  else ({ st with jobs := insertA st.jobs j.id j }, none)

/-- AddJob of src/core/pipeline.go: store the record unconditionally, emit
job.added, and additionally job.started for a running record or
job.completed for a success or failed record. -/
def addJob (st : EngineState) (j : Job) (now : Nat) :
    EngineState × List Event :=
  let ev1 : Event :=
    { type := "job.added", timestamp := now, pipelineID := j.pipelineID,
      jobID := j.id, stepID := "", data := [("status", j.status)] }
  let st1 := emitEvent { st with jobs := insertA st.jobs j.id j } ev1
  if j.status = "running" then
    let ev2 : Event :=
      { type := "job.started", timestamp := now, pipelineID := j.pipelineID,
        jobID := j.id, stepID := "", data := [] }
    (emitEvent st1 ev2, [ev1, ev2])
  else if j.status = "success" ∨ j.status = "failed" then
    let ev2 : Event :=
      { type := "job.completed", timestamp := now,
        pipelineID := j.pipelineID, jobID := j.id, stepID := "",
        data := [("status", j.status)] }
    (emitEvent st1 ev2, [ev1, ev2])
  else (st1, [ev1])

/-- The PUT update handler of src/api/routes/pipeline.go: check the payload
id against the URL id, fetch the existing pipeline, delete it, copy the
original createdAt onto the payload, and re-create it through
createPipeline (which stamps both timestamps with the current time again). -/
def updatePipelineRoute (st : EngineState) (id : String) (p : Pipeline)
    (now : Nat) : EngineState × Option String :=
  if p.id ≠ id then (st, some "pipeline ID in URL does not match payload")
  else
    match getPipeline st id with
    | none => (st, some "pipeline not found")
    | some existing =>
      match deletePipeline st id now with
      | (_, _, some e) => (st, some e)
      | (st1, _, none) =>
        let p1 := { p with createdAt := existing.createdAt, updatedAt := now }
        match createPipeline st1 p1 now with
        | (_, _, some e) => (st1, some e)
        | (st2, _, none) => (st2, none)

/-
Combined dependency graph of a stage-shaped pipeline, used to state the
validation claims: stage-level needs edges plus intra-stage step dependsOn
edges, with a fuel-bounded reachability check for cycles.
-/

/-- All stage ids and step ids of a pipeline. -/
def nodesOf (p : Pipeline) : List String :=
  p.stages.map Stage.id ++ p.stages.flatMap fun st => st.steps.map Step.id

/-- Edges of the combined dependency graph: one edge per stage-level needs
entry and one edge per intra-stage step dependsOn entry. -/
def edgesOf (p : Pipeline) : List (String × String) :=
  (p.stages.flatMap fun st => st.needs.map fun n => (st.id, n)) ++
    (p.stages.flatMap fun st =>
      st.steps.flatMap fun s => s.dependsOn.map fun d => (s.id, d))

/-- Direct successors of a node in an edge list. -/
def succsOf (edges : List (String × String)) (n : String) : List String :=
  (edges.filter fun e => e.1 = n).map Prod.snd

/-- Nodes reachable from a node in between 1 and fuel steps. -/
def reachableFrom (edges : List (String × String)) :
    Nat → String → List String
  | 0, _ => []
  | fuel + 1, a =>
      let s := succsOf edges a
      s ++ s.flatMap (reachableFrom edges fuel)

/-- A pipeline whose combined dependency graph contains a cycle: some node
reaches itself within as many steps as there are nodes. -/
def hasCycle (p : Pipeline) : Bool :=
  (nodesOf p).any fun n =>
    (reachableFrom (edgesOf p) (nodesOf p).length n).contains n

/-- Every id referenced by a stage-level needs entry is a stage id and
every id referenced by a step dependsOn entry is a step id of the same
stage. -/
def refsOk (p : Pipeline) : Bool :=
  p.stages.all fun st =>
    (st.needs.all fun n => (p.stages.map Stage.id).contains n) &&
      st.steps.all fun s =>
        s.dependsOn.all fun d => (st.steps.map Step.id).contains d

end Conveyor

namespace Conveyor.Flat

/-
Shallow embedding of the flat-step engine of src/unnamed/part_000
(package core): Step carries a dependsOn list and a Retries count, and
ExecutePipeline drives executeStepsWithDependencies over a dependency
graph built from the steps.  Plugin behaviour is abstracted as a function
ok taking a step id and an invocation index (counting from 1) and
returning true when that invocation of executeStep yields no error; an
unknown step type is the constantly false behaviour.  The batch of ready
steps runs in goroutines in the source; their effects commute (results and
statuses are keyed by distinct step ids), so the batch is modelled
sequentially.  The cache interaction of a single run is threaded through
sequentially here; the concurrent cache race is modelled separately below.
-/

/-- Step of src/unnamed/part_000: id, name, type, dependsOn, the Retries
count and whether the step has a cache map attached; status holds the
stored status string. -/
structure Step where
  id : String
  name : String
  type : String
  dependsOn : List String
  retries : Nat
  cache : Bool
  status : String
  deriving DecidableEq

/-- buildDependencyGraph of src/unnamed/part_000: each step maps to its
dependsOn list. -/
def buildDependencyGraph (steps : List Step) : List (String × List String) :=
  steps.map fun s => (s.id, s.dependsOn)

/-- findRootsInGraph of src/unnamed/part_000: the steps with no
dependencies. -/
def findRootsInGraph (graph : List (String × List String)) : List String :=
  (graph.filter fun e => e.2.isEmpty).map Prod.fst

/-- findNewReadySteps of src/unnamed/part_000: the steps still in the
graph all of whose dependencies were executed and succeeded (a dependency
absent from results, or present with an error, blocks the step). -/
def findNewReadySteps (graph : List (String × List String))
    (results : List (String × Bool)) : List String :=
  (graph.filter fun e =>
    e.2.all fun d => (lookupA results d).getD false).map Prod.fst

/-- The retry loop of executeStepsWithDependencies: invocation n has just
been dispatched with r retries remaining; returns the total number of
invocations and whether the last one succeeded.  The Go loop runs the step
once, then re-runs it while the previous invocation failed and retries
remain, decrementing the Retries budget each time. -/
def retryRun (ok : Nat → Bool) : Nat → Nat → Nat × Bool
  | n, 0 => (n, ok n)
  | n, r + 1 => if ok n then (n, true) else retryRun ok (n + 1) r

/-- The cache-then-execute body of one step goroutine: on a cache hit with
caching enabled the cached result is used and no invocation happens;
otherwise the step runs once, the result is cached only when caching is
enabled and the first invocation succeeded, and the retry loop then re-runs
the step on failure.  Returns success and the new set of cache keys. -/
def execOneStep (pid : String) (ok : String → Nat → Bool) (step : Step)
    (cm : List String) : Bool × List String :=
  let key := pid ++ ":" ++ step.id
  if step.cache && cm.contains key then (true, cm)
  else
    let cm1 := if step.cache && ok step.id 1 then key :: cm else cm
    ((retryRun (ok step.id) 1 step.retries).2, cm1)

/-- One batch of ready steps: record a step-not-found error as a failed
result, otherwise run the step and record its result and final status. -/
def execBatch (pid : String) (ok : String → Nat → Bool)
    (steps : List Step) :
    List String → List (String × Bool) → List (String × String) →
    List String →
    List (String × Bool) × List (String × String) × List String
  | [], results, statuses, cm => (results, statuses, cm)
  | id :: rest, results, statuses, cm =>
    match steps.find? fun s => s.id == id with
    | none => execBatch pid ok steps rest (insertA results id false) statuses cm
    | some step =>
      let r := execOneStep pid ok step cm
      execBatch pid ok steps rest (insertA results id r.1)
        (insertA statuses id (if r.1 then "success" else "failed")) r.2

/-- The wave loop of executeStepsWithDependencies: while steps remain, run
the ready batch, drop the executed steps from the graph, recompute the
ready set, and fail with the circular-dependency error when steps remain
but none is ready.  The fuel argument only bounds the recursion; with fuel
above the number of remaining steps the fuel branch is unreachable, since
every continuing iteration removes at least one step. -/
def execLoop (pid : String) (ok : String → Nat → Bool) (steps : List Step) :
    Nat → List (String × List String) → List String → Nat →
    List (String × Bool) → List (String × String) → List String →
    Option String × List (String × Bool) × List (String × String)
  | 0, _, _, _, results, statuses, _ => (some "fuel exhausted", results, statuses)
  | fuel + 1, graph, ready, remaining, results, statuses, cm =>
    if remaining = 0 then (none, results, statuses)
    else
      let b := execBatch pid ok steps ready results statuses cm
      let graph1 := ready.foldl (fun g id => eraseA g id) graph
      let remaining1 := remaining - ready.length
      let ready1 := findNewReadySteps graph1 b.1
      if remaining1 ≠ 0 ∧ ready1 = [] then
        (some "circular dependency detected or failed dependencies",
          b.1, b.2.1)
      else execLoop pid ok steps fuel graph1 ready1 remaining1 b.1 b.2.1 b.2.2

/-- executeStepsWithDependencies of src/unnamed/part_000: build the graph,
seed the ready set with the roots, run the wave loop, and after a clean
loop exit report the first stored step error if any. -/
def executeStepsWithDependencies (pid : String)
    (ok : String → Nat → Bool) (steps : List Step) :
    Option String × List (String × Bool) × List (String × String) :=
  let graph := buildDependencyGraph steps
  let ready := findRootsInGraph graph
  let statuses0 := steps.map fun s => (s.id, s.status)
  let r := execLoop pid ok steps (steps.length + 1) graph ready
    steps.length [] statuses0 []
  match r.1 with
  | some e => (some e, r.2)
  | none =>
    (if r.2.1.any fun x => !x.2 then some "step error" else none, r.2)

/-- ExecutePipeline of src/unnamed/part_000, reduced to its outcome: the
final pipeline status (failed exactly when executeStepsWithDependencies
returned an error), the error, and the final step statuses. -/
def executePipelineFlat (pid : String) (ok : String → Nat → Bool)
    (steps : List Step) :
    String × Option String × List (String × String) :=
  let r := executeStepsWithDependencies pid ok steps
  (if r.1.isSome then "failed" else "success", r.1, r.2.2)

end Conveyor.Flat

namespace Conveyor

/-
Interleaving model of the cache access in executeStepsWithDependencies
(src/unnamed/part_000, the cacheable-step path) for two goroutines sharing
one cache key.  Each worker performs three atomic actions, matching the
lock regions of the source: read the cache under RLock, execute the plugin
(counted), and write the result under Lock; a worker that observed a hit
uses the cached result without executing.  The plugin is assumed to succeed
on its first attempt, so the retry loop does not run.
-/

/-- Program counter of one cache-using worker goroutine. -/
inductive WPC where
  | start
  | readMiss
  | readHit
  | executed
  | done
  deriving DecidableEq

/-- Shared cache slot, plugin execution counter, and both worker program
counters. -/
structure RaceState where
  cached : Bool
  execs : Nat
  w1 : WPC
  w2 : WPC
  deriving DecidableEq

/-- One atomic action of a worker: the resulting cache flag, the number of
plugin executions performed (0 or 1), and the next program counter. -/
def wpcNext (cached : Bool) (pc : WPC) : Bool × Nat × WPC :=
  match pc with
  | WPC.start => (cached, 0, if cached then WPC.readHit else WPC.readMiss)
  | WPC.readHit => (cached, 0, WPC.done)
  | WPC.readMiss => (cached, 1, WPC.executed)
  | WPC.executed => (true, 0, WPC.done)
  | WPC.done => (cached, 0, WPC.done)

/-- Run one atomic action of worker 1 (true) or worker 2 (false). -/
def raceStep (s : RaceState) (w : Bool) : RaceState :=
  if w then
    let r := wpcNext s.cached s.w1
    { cached := r.1, execs := s.execs + r.2.1, w1 := r.2.2, w2 := s.w2 }
  else
    let r := wpcNext s.cached s.w2
    { cached := r.1, execs := s.execs + r.2.1, w1 := s.w1, w2 := r.2.2 }

/-- Run a schedule, a list of worker choices, from a state. -/
def runSched (s : RaceState) (sched : List Bool) : RaceState :=
  sched.foldl raceStep s

/-- Both workers about to start on an empty cache slot. -/
def raceInit : RaceState :=
  { cached := false, execs := 0, w1 := WPC.start, w2 := WPC.start }

/-- Remaining plugin executions a worker in this state can still perform. -/
def wpcPot : WPC → Nat
  | WPC.start => 1
  | WPC.readMiss => 1
  | _ => 0

/-- One atomic action never increases the execution count plus the
remaining execution potential of the acting worker. -/
theorem wpcNext_pot (c : Bool) (pc : WPC) :
    (wpcNext c pc).2.1 + wpcPot (wpcNext c pc).2.2 ≤ wpcPot pc := by
  cases pc <;> cases c <;> simp [wpcNext, wpcPot]

/-- One scheduled action never increases the execution count plus both
remaining potentials. -/
theorem raceStep_pot (s : RaceState) (w : Bool) :
    (raceStep s w).execs + wpcPot (raceStep s w).w1 +
        wpcPot (raceStep s w).w2 ≤
      s.execs + wpcPot s.w1 + wpcPot s.w2 := by
  cases w
  · have h := wpcNext_pot s.cached s.w2
    simp only [raceStep, Bool.false_eq_true, if_false]
    omega
  · have h := wpcNext_pot s.cached s.w1
    simp only [raceStep, if_true]
    omega

/-- A whole schedule never increases the execution count plus both
remaining potentials. -/
theorem runSched_pot (sched : List Bool) (s : RaceState) :
    (runSched s sched).execs + wpcPot (runSched s sched).w1 +
        wpcPot (runSched s sched).w2 ≤
      s.execs + wpcPot s.w1 + wpcPot s.w2 := by
  induction sched generalizing s with
  | nil => simp [runSched]
  | cons a t ih =>
    have h1 := raceStep_pot s a
    have h2 := ih (raceStep s a)
    simp only [runSched, List.foldl_cons] at h2 ⊢
    omega

/-
Helper lemmas about the map model and the event fan-out.
-/

/-- Looking up a key just written returns the written value. -/
theorem lookupA_insertA_self {α : Type} (m : List (String × α)) (k : String)
    (v : α) : lookupA (insertA m k v) k = some v := by
  induction m with
  | nil => simp [insertA, lookupA]
  | cons hd t ih =>
    obtain ⟨k1, v1⟩ := hd
    by_cases hk : k1 = k
    · simp [insertA, hk, lookupA]
    · simp [insertA, hk, lookupA, ih]

/-- Looking up a key just deleted returns nothing. -/
theorem lookupA_eraseA_self {α : Type} (m : List (String × α)) (k : String) :
    lookupA (eraseA m k) k = none := by
  induction m with
  | nil => simp [eraseA, lookupA]
  | cons hd t ih =>
    obtain ⟨k1, v1⟩ := hd
    by_cases hk : k1 = k
    · simp [eraseA, hk, ih]
    · simp [eraseA, hk, lookupA, ih]

/-- Event emission only touches the listener buffers, not the pipelines. -/
theorem emitEvent_pipelines (st : EngineState) (e : Event) :
    (emitEvent st e).pipelines = st.pipelines := rfl

/-- Event emission only touches the listener buffers, not the jobs. -/
theorem emitEvent_jobs (st : EngineState) (e : Event) :
    (emitEvent st e).jobs = st.jobs := rfl

/-
Concrete fixtures used by the witnesses and counterexamples.
-/

/-- A minimal stage-shaped pipeline with id w. -/
def pipeW : Pipeline :=
  { id := "w", name := "W", description := "", stages := [],
    createdAt := 0, updatedAt := 0 }

/-- A minimal stage-shaped pipeline with id k. -/
def pipeK : Pipeline :=
  { id := "k", name := "K", description := "", stages := [],
    createdAt := 0, updatedAt := 0 }

/-- A pipeline whose single stage holds two steps depending on each other:
its combined dependency graph has the cycle a to b to a. -/
def cyclicPipe : Pipeline :=
  { id := "c", name := "C", description := "",
    stages :=
      [ { id := "s", name := "s",
          steps :=
            [ { id := "a", name := "a", type := "t", dependsOn := ["b"] },
              { id := "b", name := "b", type := "t", dependsOn := ["a"] } ],
          needs := [], parallel := false, dependsOn := [] } ],
    createdAt := 0, updatedAt := 0 }

/-- A pipeline with id p and name A, the original definition for C6. -/
def pipe6a : Pipeline :=
  { id := "p", name := "A", description := "", stages := [],
    createdAt := 0, updatedAt := 0 }

/-- A pipeline with id p and name B, the replacement definition for C6. -/
def pipe6b : Pipeline :=
  { id := "p", name := "B", description := "", stages := [],
    createdAt := 0, updatedAt := 0 }

/-- A job in terminal status success. -/
def jobSuccess : Job :=
  { id := "j", pipelineID := "p", status := "success", startedAt := 0,
    endedAt := some 1, metadata := [] }

/-- The same job id resubmitted with status running. -/
def jobRerun : Job :=
  { id := "j", pipelineID := "p", status := "running", startedAt := 2,
    endedAt := none, metadata := [] }

/-- Engine state holding only the terminal job, for C5. -/
def st5 : EngineState :=
  { pipelines := [], jobs := [("j", jobSuccess)], listeners := [] }

/-- A running job of pipeline p, for C7. -/
def jobActive : Job :=
  { id := "r", pipelineID := "p", status := "running", startedAt := 0,
    endedAt := none, metadata := [] }

/-- Engine state holding pipeline p and a running job of it, for C7. -/
def st7 : EngineState :=
  { pipelines := [("p", pipe6a)], jobs := [("r", jobActive)],
    listeners := [] }

/-- An already-stored terminal job whose id collides with the id
ExecutePipeline derives from unix second 5, for C8. -/
def jobOld5 : Job :=
  { id := "job-5", pipelineID := "p", status := "success", startedAt := 0,
    endedAt := some 1, metadata := [] }

/-- A terminal job of pipeline p under id j0, the retry source for C8. -/
def jobSuccess2 : Job :=
  { id := "j0", pipelineID := "p", status := "failed", startedAt := 0,
    endedAt := some 1, metadata := [] }

/-- Engine state holding pipeline p, the colliding job and a retryable
job, for C8. -/
def st8 : EngineState :=
  { pipelines := [("p", pipe6a)],
    jobs := [("job-5", jobOld5), ("j0", jobSuccess2)], listeners := [] }

/-- An event already sitting in a full sink buffer. -/
def ev0 : Event :=
  { type := "run.started", timestamp := 0, pipelineID := "p", jobID := "",
    stepID := "", data := [] }

/-- An event emitted towards the sinks. -/
def ev1 : Event :=
  { type := "step.started", timestamp := 1, pipelineID := "p", jobID := "",
    stepID := "", data := [] }

/-- Engine state with one sink of capacity 2 and empty buffer. -/
def st9 : EngineState :=
  { pipelines := [], jobs := [],
    listeners := [("a", { capacity := 2, buffer := [] })] }

/-- Engine state with one sink of capacity 1 whose buffer is full. -/
def st9f : EngineState :=
  { pipelines := [], jobs := [],
    listeners := [("a", { capacity := 1, buffer := [ev0] })] }

/-- A flat step x with no dependencies whose plugin always fails. -/
def stepX : Flat.Step :=
  { id := "x", name := "x", type := "t", dependsOn := [], retries := 0,
    cache := false, status := "pending" }

/-- A flat step y depending on x. -/
def stepY : Flat.Step :=
  { id := "y", name := "y", type := "t", dependsOn := ["x"], retries := 0,
    cache := false, status := "pending" }

/-- Plugin behaviour failing every invocation of every step. -/
def failAll : String → Nat → Bool := fun _ _ => false

/-
Claim C1.
-/

/-- Claim C1 counterexample: the pipeline whose two steps depend on each
other is accepted by CreatePipeline and stored, although its combined
dependency graph has a cycle, so an invalid spec is not rejected at
creation time. -/
theorem c1_counterexample :
    hasCycle cyclicPipe = true ∧
    (createPipeline emptyEngine cyclicPipe 1).2.2 = none ∧
    getPipeline (createPipeline emptyEngine cyclicPipe 1).1 "c" ≠ none := by
  decide

/-- Claim C1 (amended): CreatePipeline accepts a pipeline exactly when its
id is non-empty and not already stored; the stage needs lists and step
dependsOn lists are never examined, so no dependency validation happens at
creation time. -/
theorem c1_create_no_validation (st : EngineState) (p : Pipeline)
    (now : Nat) :
    (createPipeline st p now).2.2 = none ↔
      p.id ≠ "" ∧ lookupA st.pipelines p.id = none := by
  by_cases h1 : p.id = ""
  · simp [createPipeline, h1]
  · cases hl : lookupA st.pipelines p.id with
    | none => simp [createPipeline, h1, hl]
    | some q => simp [createPipeline, h1, hl]

/-- Claim C1 witness: a concrete pipeline with a fresh non-empty id is
accepted. -/
theorem c1_create_no_validation_witness :
    (createPipeline emptyEngine pipeW 3).2.2 = none :=
  (c1_create_no_validation emptyEngine pipeW 3).mpr (by decide)

/-
Claim C2.
-/

/-- Claim C2 counterexample: the schedule that lets both workers read the
empty cache slot before either writes completes both workers with two
plugin executions for the same cache key, so concurrent requesters do not
resolve to a single leader execution. -/
theorem c2_counterexample :
    (runSched raceInit [true, false, true, true, false, false]).execs = 2 ∧
    (runSched raceInit [true, false, true, true, false, false]).w1 =
      WPC.done ∧
    (runSched raceInit [true, false, true, true, false, false]).w2 =
      WPC.done := by decide

/-- Claim C2 (amended): the cache of executeStepsWithDependencies is a
plain read-check-execute-write under separate lock acquisitions, with no
single-flight coordination: every schedule performs at most one plugin
execution per worker (hence at most two in total), and only the schedule
in which one worker publishes before the other reads yields a single
execution, the later worker then taking the cached result. -/
theorem c2_cache_no_single_flight :
    (∀ sched : List Bool, (runSched raceInit sched).execs ≤ 2) ∧
    runSched raceInit [true, true, true, false, false] =
      { cached := true, execs := 1, w1 := WPC.done, w2 := WPC.done } := by
  constructor
  · intro sched
    have h := runSched_pot sched raceInit
    have h2 : raceInit.execs + wpcPot raceInit.w1 + wpcPot raceInit.w2 = 2 :=
      rfl
    omega
  · decide

/-- Claim C2 witness: the bound applied to a concrete schedule. -/
theorem c2_cache_no_single_flight_witness :
    (runSched raceInit [true, false]).execs ≤ 2 :=
  c2_cache_no_single_flight.1 [true, false]

/-
Claim C3.
-/

/-- Claim C3 counterexample: with step x failing and step y depending on
x, the run ends failed with the circular-dependency-or-failed-dependencies
error and y keeps its prior status pending; it is never marked skipped
with an upstream_failed reason. -/
theorem c3_counterexample :
    (Flat.executePipelineFlat "p" failAll [stepX, stepY]).1 = "failed" ∧
    (Flat.executePipelineFlat "p" failAll [stepX, stepY]).2.1 =
      some "circular dependency detected or failed dependencies" ∧
    lookupA (Flat.executePipelineFlat "p" failAll [stepX, stepY]).2.2 "y" =
      some "pending" := by decide

/-- Claim C3 (amended): a step is returned by findNewReadySteps only when
every one of its listed dependencies has been executed successfully, so
the direct and transitive dependents of a failed step are never
dispatched; they keep their prior status instead of being marked skipped,
and the loop then aborts the run with a dependency error, ending the run
failed. -/
theorem c3_ready_requires_success (g : List (String × List String))
    (res : List (String × Bool)) (id : String)
    (h : id ∈ Flat.findNewReadySteps g res) :
    ∃ deps, (id, deps) ∈ g ∧ ∀ d ∈ deps, lookupA res d = some true := by
  simp only [Flat.findNewReadySteps, List.mem_map] at h
  obtain ⟨⟨e1, e2⟩, he, heq⟩ := h
  simp only at heq
  subst heq
  have hf := List.mem_filter.mp he
  refine ⟨e2, hf.1, ?_⟩
  intro d hd
  have hp := hf.2
  simp only [List.all_eq_true] at hp
  have hpd := hp d hd
  cases hl : lookupA res d with
  | none => rw [hl] at hpd; simp at hpd
  | some b => rw [hl] at hpd; simp at hpd; simp [hpd]

/-- Claim C3 witness: the ready step y of a concrete graph indeed has its
dependency recorded successful. -/
theorem c3_ready_requires_success_witness :
    ∃ deps, ("y", deps) ∈ [("y", ["x"])] ∧
      ∀ d ∈ deps, lookupA [("x", true)] d = some true :=
  c3_ready_requires_success [("y", ["x"])] [("x", true)] "y" (by decide)

/-
Claim C4.
-/

/-- The retry loop performs at least one and at most r further invocations
beyond the one already counted. -/
theorem retryRun_bounds (ok : Nat → Bool) (r : Nat) (n : Nat) :
    n ≤ (Flat.retryRun ok n r).1 ∧ (Flat.retryRun ok n r).1 ≤ n + r := by
  induction r generalizing n with
  | zero => simp [Flat.retryRun]
  | succ k ih =>
    by_cases h : ok n = true
    · simp [Flat.retryRun, h]
    · have hik := ih (n + 1)
      simp [Flat.retryRun, h]
      omega

/-- Claim C4 counterexample: a step whose retry field is 2 and whose
plugin always fails is invoked 3 times, one initial attempt plus two
retries, exceeding the claimed bound of the retry field itself. -/
theorem c4_counterexample :
    (Flat.retryRun (fun _ => false) 1 2).1 = 3 ∧
    ¬ (Flat.retryRun (fun _ => false) 1 2).1 ≤ 2 := by decide

/-- Claim C4 (amended): a step with Retries r is invoked at least once and
at most r plus 1 times; when the first invocation succeeds there is
exactly one invocation and the loop reports success, and with Retries 0
exactly one invocation happens. -/
theorem c4_retry_invocations (ok : Nat → Bool) (r : Nat) :
    1 ≤ (Flat.retryRun ok 1 r).1 ∧
    (Flat.retryRun ok 1 r).1 ≤ r + 1 ∧
    (ok 1 = true → Flat.retryRun ok 1 r = (1, true)) ∧
    (Flat.retryRun ok 1 0).1 = 1 := by
  have hb := retryRun_bounds ok r 1
  refine ⟨hb.1, by omega, ?_, by simp [Flat.retryRun]⟩
  intro h1
  cases r with
  | zero => simp [Flat.retryRun, h1]
  | succ k => simp [Flat.retryRun, h1]

/-- Claim C4 witness: a plugin succeeding immediately is invoked once even
with retries budgeted. -/
theorem c4_retry_invocations_witness :
    Flat.retryRun (fun _ => true) 1 2 = (1, true) :=
  (c4_retry_invocations (fun _ => true) 2).2.2.1 rfl

/-
Claim C5.
-/

/-- Claim C5 counterexample: the stored job j is terminal with status
success, yet UpdateJob replaces it with a running record without error, so
a terminal run moves back to running. -/
theorem c5_counterexample :
    (lookupA st5.jobs "j").map Job.status = some "success" ∧
    (updateJob st5 jobRerun).2 = none ∧
    (lookupA (updateJob st5 jobRerun).1.jobs "j").map Job.status =
      some "running" := by decide

/-- Claim C5 (amended): whenever a run record with the given id exists,
UpdateJob succeeds and replaces it with the supplied record without
inspecting either status, and AddJob stores the supplied record
unconditionally; terminal statuses are not protected. -/
theorem c5_update_overwrites (st : EngineState) (j j0 : Job) (now : Nat)
    (h : lookupA st.jobs j.id = some j0) :
    (updateJob st j).2 = none ∧
    lookupA (updateJob st j).1.jobs j.id = some j ∧
    lookupA (addJob st j now).1.jobs j.id = some j := by
  refine ⟨?_, ?_, ?_⟩
  · simp [updateJob, h]
  · simp [updateJob, h, lookupA_insertA_self]
  · simp only [addJob]
    split_ifs <;> simp [emitEvent_jobs, lookupA_insertA_self]

/-- Claim C5 witness: the terminal job of the concrete state is replaced
by the running record. -/
theorem c5_update_overwrites_witness :
    lookupA (updateJob st5 jobRerun).1.jobs jobRerun.id = some jobRerun :=
  (c5_update_overwrites st5 jobRerun jobSuccess 0 (by decide)).2.1

/-
Claim C6.
-/

/-- Claim C6: updating pipeline p, created at time 1, through the PUT
route at time 2 yields a stored pipeline whose createdAt is 2, not the
original 1: the route copies the original createdAt onto the payload but
CreatePipeline overwrites both timestamps with the current time, so the
creation time is lost. -/
theorem c6_createdAt_not_preserved :
    (getPipeline
        (updatePipelineRoute (createPipeline emptyEngine pipe6a 1).1 "p"
          pipe6b 2).1 "p").map Pipeline.createdAt = some 2 ∧
    ¬ (getPipeline
        (updatePipelineRoute (createPipeline emptyEngine pipe6a 1).1 "p"
          pipe6b 2).1 "p").map Pipeline.createdAt = some 1 := by decide

/-
Claim C7.
-/

/-- Claim C7 counterexample: pipeline p has a running job, yet
DeletePipeline succeeds and removes the pipeline instead of returning an
InUse error and keeping it. -/
theorem c7_counterexample :
    (lookupA st7.jobs "r").map Job.status = some "running" ∧
    (lookupA st7.jobs "r").map Job.pipelineID = some "p" ∧
    (deletePipeline st7 "p" 9).2.2 = none ∧
    getPipeline (deletePipeline st7 "p" 9).1 "p" = none := by decide

/-- Claim C7 (amended): DeletePipeline removes a stored pipeline and emits
one pipeline.deleted event whenever the id exists, regardless of the
statuses of its runs, which are orphaned; the only error is not-found. -/
theorem c7_delete_ignores_runs (st : EngineState) (id : String) (now : Nat)
    (h : (lookupA st.pipelines id).isSome) :
    (deletePipeline st id now).2.2 = none ∧
    getPipeline (deletePipeline st id now).1 id = none ∧
    (deletePipeline st id now).2.1.length = 1 ∧
    ∀ e ∈ (deletePipeline st id now).2.1, e.type = "pipeline.deleted" := by
  obtain ⟨v, hv⟩ := Option.isSome_iff_exists.mp h
  simp [deletePipeline, hv, getPipeline, emitEvent_pipelines,
    lookupA_eraseA_self]

/-- Claim C7 witness: the concrete pipeline with a running job is deleted
without error. -/
theorem c7_delete_ignores_runs_witness :
    getPipeline (deletePipeline st7 "p" 9).1 "p" = none :=
  (c7_delete_ignores_runs st7 "p" 9 (by decide)).2.1

/-
Claim C8.
-/

/-- Claim C8 counterexample: a job with id job-5 is already stored in
terminal status success; ExecutePipeline at unix second 5 derives the same
id and overwrites the record with a fresh running job, so the new run id
is not distinct from the ids already present. -/
theorem c8_counterexample :
    (lookupA st8.jobs "job-5").map Job.status = some "success" ∧
    (executePipeline st8 "p" 5).2.2 = none ∧
    (lookupA (executePipeline st8 "p" 5).1.jobs "job-5").map Job.status =
      some "running" := by decide

/-- Claim C8 (amended): on an existing pipeline, ExecutePipeline succeeds
and stores a fresh running job under the id job-(unix seconds),
overwriting any job already stored under that id; RetryJob likewise stores
a fresh job under that id whose metadata carries retryOf equal to the
original job id. -/
theorem c8_run_creation (st : EngineState) (pid jid : String) (now : Nat)
    (j : Job) (hp : (lookupA st.pipelines pid).isSome)
    (hj : lookupA st.jobs jid = some j) (hpe : j.pipelineID = pid) :
    ((executePipeline st pid now).2.2 = none ∧
      lookupA (executePipeline st pid now).1.jobs ("job-" ++ toString now) =
        some (newRunJob pid now)) ∧
    ((retryJob st pid jid now).2.2 = none ∧
      (lookupA (retryJob st pid jid now).1.jobs
          ("job-" ++ toString now)).map Job.metadata =
        some [("retryOf", jid)]) := by
  obtain ⟨v, hv⟩ := Option.isSome_iff_exists.mp hp
  constructor
  · constructor
    · simp [executePipeline, hv]
    · simp [executePipeline, hv, emitEvent_jobs, newRunJob,
        lookupA_insertA_self]
  · constructor
    · simp [retryJob, hj, hpe]
    · simp [retryJob, hj, hpe, emitEvent_jobs, newRetryJob,
        lookupA_insertA_self]

/-- Claim C8 witness: retrying job j0 of pipeline p at unix second 7
stores a new run whose metadata links back to j0. -/
theorem c8_run_creation_witness :
    (lookupA (retryJob st8 "p" "j0" 7).1.jobs
        ("job-" ++ toString 7)).map Job.metadata =
      some [("retryOf", "j0")] :=
  (c8_run_creation st8 "p" "j0" 7 jobSuccess2 (by decide) (by decide)
    (by decide)).2.2

/-
Claim C9.
-/

/-- Claim C9 counterexample: emitting to the engine whose single sink of
capacity 1 is full leaves the engine state entirely unchanged: the event
is dropped for that sink and nothing anywhere in the state records the
drop, so no per-subscriber drop counter is incremented. -/
theorem c9_counterexample : emitEvent st9f ev1 = st9f := by decide

/-- Claim C9 (amended): emission is non-blocking and per-sink: every
registered sink with free buffer space receives the event appended to its
buffer, a full sink is left exactly as it was with the event silently
dropped, and the pipelines and jobs maps are untouched; no drop counter
exists. -/
theorem c9_emit_nonblocking (st : EngineState) (e : Event) (id : String)
    (s : Sink) (h : (id, s) ∈ st.listeners) :
    (id, { s with buffer :=
        if s.buffer.length < s.capacity then s.buffer ++ [e]
        else s.buffer }) ∈ (emitEvent st e).listeners ∧
    (emitEvent st e).pipelines = st.pipelines ∧
    (emitEvent st e).jobs = st.jobs := by
  refine ⟨?_, rfl, rfl⟩
  simp only [emitEvent]
  refine List.mem_map.mpr ⟨(id, s), h, ?_⟩
  by_cases hb : s.buffer.length < s.capacity <;> simp [hb]

/-- Claim C9 witness: the sink with free space of the concrete state
receives the emitted event. -/
theorem c9_emit_nonblocking_witness :
    ("a", ({ capacity := 2, buffer := [ev1] } : Sink)) ∈
      (emitEvent st9 ev1).listeners := by
  have h := c9_emit_nonblocking st9 ev1 "a"
    { capacity := 2, buffer := [] } (by decide)
  simpa using h.1

/-
Claim C10.
-/

/-- Claim C10: when CreatePipeline returns an error the engine state is
unchanged and no event is emitted; when it returns no error the pipeline
is retrievable through GetPipeline under its id with both timestamps
stamped, and exactly one event, of type pipeline.created, is emitted. -/
theorem c10_create_atomic (st : EngineState) (p : Pipeline) (now : Nat) :
    ((createPipeline st p now).2.2.isSome →
      (createPipeline st p now).1 = st ∧
        (createPipeline st p now).2.1 = []) ∧
    ((createPipeline st p now).2.2 = none →
      getPipeline (createPipeline st p now).1 p.id =
        some { p with createdAt := now, updatedAt := now } ∧
      (createPipeline st p now).2.1.length = 1 ∧
      ∀ e ∈ (createPipeline st p now).2.1,
        e.type = "pipeline.created") := by
  by_cases h1 : p.id = ""
  · simp [createPipeline, h1]
  · cases hl : lookupA st.pipelines p.id with
    | none =>
      simp [createPipeline, h1, hl, getPipeline, emitEvent_pipelines,
        lookupA_insertA_self]
    | some q => simp [createPipeline, h1, hl]

/-- Claim C10 witness: the concrete pipeline with fresh id k is stored
and retrievable with both timestamps set to the creation time. -/
theorem c10_create_atomic_witness :
    getPipeline (createPipeline emptyEngine pipeK 4).1 pipeK.id =
      some { pipeK with createdAt := 4, updatedAt := 4 } :=
  ((c10_create_atomic emptyEngine pipeK 4).2 (by decide)).1

end Conveyor
